import Mathlib

set_option linter.unusedVariables false

/-!
Shallow embedding of the bot-detection core of OpenSocialMonitor
(file src/detection/indicators.py): the likelihood scorer
calculate_bot_likelihood and the coordination detector
detect_coordination, together with theorems checking the specification
claims about them.

Modelling conventions.  Python floats are modelled as rationals.  A user
profile dict is modelled as a structure of optional fields plus a flag
recording whether the dict carries further, unmodelled keys; Python dict
truthiness (nonempty) becomes the disjunction of field presence.  The
indicators dict is modelled as a structure with one optional field per
possible key.  String operations work on the underlying character lists;
lowercasing is ASCII lowercasing, matching the phrase and username data
the code compares against.
-/

set_option maxRecDepth 4000

/-- A user profile / activity dict as accepted by the scorer.  Each modelled
key is an optional field; `extra_keys` records whether the dict holds any
key the scorer never reads (the real callers pass such keys). -/
structure UserData where
  is_verified : Option Bool
  posting_regularity : Option ℚ
  avg_engagement_rate : Option ℚ
  follower_count : Option ℚ
  following_count : Option ℚ
  post_count : Option ℚ
  has_profile_pic : Option Bool
  extra_keys : Bool
deriving DecidableEq

/-- The empty dict. -/
def UserData.empty : UserData :=
  ⟨none, none, none, none, none, none, none, false⟩

/-- Python truthiness of the dict: it is nonempty. -/
def UserData.truthy (d : UserData) : Bool :=
  d.is_verified.isSome || d.posting_regularity.isSome ||
  d.avg_engagement_rate.isSome || d.follower_count.isSome ||
  d.following_count.isSome || d.post_count.isSome ||
  d.has_profile_pic.isSome || d.extra_keys

/-- The indicators dict returned by the scorer: one optional field per key
the code can insert. -/
structure Indicators where
  suspicious_phrases : Option (List String)
  excessive_emojis : Option ℕ
  contains_urls : Option Bool
  verified_account : Option Bool
  suspiciously_regular_posting : Option Bool
  extremely_low_engagement : Option Bool
  high_following_ratio : Option Bool
  excessive_post_volume : Option Bool
  no_profile_pic : Option Bool
  suspicious_username : Option Bool
deriving DecidableEq

/-- The empty indicators dict. -/
def Indicators.empty : Indicators :=
  ⟨none, none, none, none, none, none, none, none, none, none⟩

/-- Substring test on character lists: Python `needle in haystack`. -/
def listContains (needle : List Char) : List Char → Bool
  | [] => needle.isEmpty
  | c :: rest => needle.isPrefixOf (c :: rest) || listContains needle rest

/-- ASCII lowercase of a string as a character list: Python str.lower
restricted to the ASCII range the code compares against. -/
def lowerData (s : String) : List Char := s.data.map Char.toLower

/-- The fixed list of bot-associated phrases from the source. -/
def bot_phrases : List String :=
  ["check my profile", "check my bio", "click here", "make money fast",
   "follow me", "dm me", "link in bio", "check link", "join now", "earn money",
   "work from home", "passive income", "click my profile"]

/-- Membership of a character in one of the emoji code-point ranges of the
emoji regex in the source. -/
def isEmojiChar (c : Char) : Bool :=
  let n := c.toNat
  (0x1F600 ≤ n && n ≤ 0x1F64F) || (0x1F300 ≤ n && n ≤ 0x1F5FF) ||
  (0x1F680 ≤ n && n ≤ 0x1F6FF) || (0x1F700 ≤ n && n ≤ 0x1F77F) ||
  (0x1F780 ≤ n && n ≤ 0x1F7FF) || (0x1F800 ≤ n && n ≤ 0x1F8FF) ||
  (0x1F900 ≤ n && n ≤ 0x1F9FF) || (0x1FA00 ≤ n && n ≤ 0x1FA6F) ||
  (0x1FA70 ≤ n && n ≤ 0x1FAFF)

/-- The emoji count of the comment text: number of characters matched by the
emoji regex. -/
def emoji_count (s : String) : ℕ := (s.data.filter isEmojiChar).length

/-- A character of the URL body class of the URL regex: `[-\w.]`. -/
def urlBodyChar (c : Char) : Bool :=
  c.isAlphanum || c = '_' || c = '-' || c = '.'

/-- A hexadecimal digit: `[\da-fA-F]`. -/
def hexDigit (c : Char) : Bool :=
  c.isDigit || ( 'a' ≤ c && c ≤ 'f') || ( 'A' ≤ c && c ≤ 'F')

/-- One unit of the URL body starts here: a body character or a
percent-escape `%hh`. -/
def urlUnitAt : List Char → Bool
  | [] => false
  | c :: rest =>
    urlBodyChar c ||
    (c = '%' && match rest with
      | a :: b :: _ => hexDigit a && hexDigit b
      | _ => false)

/-- A match of the URL regex `https?://(?:[-\w.]|(?:%[\da-fA-F]{2}))+`
starts at the head of the list. -/
def urlMatchAt (l : List Char) : Bool :=
  ("http://".data.isPrefixOf l && urlUnitAt (l.drop 7)) ||
  ("https://".data.isPrefixOf l && urlUnitAt (l.drop 8))

/-- The comment text contains at least one URL-regex match. -/
def hasUrl : List Char → Bool
  | [] => false
  | c :: rest => urlMatchAt (c :: rest) || hasUrl rest

/-- Last four characters are digits: a match of the `\d{4}$` alternative. -/
def lastFourDigits (l : List Char) : Bool :=
  match l.reverse with
  | a :: b :: c :: d :: _ => a.isDigit && b.isDigit && c.isDigit && d.isDigit
  | _ => false

/-- The list ends with the given suffix. -/
def endsWithL (suffix l : List Char) : Bool :=
  suffix.reverse.isPrefixOf l.reverse

/-- The username-pattern check of the source: the regex
`(bot|follow|auto|\d{4})$` matches the lowercased username. -/
def suspicious_username (username : String) : Bool :=
  let l := lowerData username
  endsWithL "bot".data l || endsWithL "follow".data l ||
  endsWithL "auto".data l || lastFourDigits l

/-- Python `value is not None and value < bound` on an optional rational. -/
def ltCheck (o : Option ℚ) (bound : ℚ) : Bool :=
  match o with
  | some r => decide (r < bound)
  | none => false

/-- The text-pattern stage of the scorer (source lines 34 to 58): starting
from the given indicators dict, accumulate the text-pattern score and the
text indicators for a truthy comment text. -/
def text_step (s : String) (ind : Indicators) : ℚ × Indicators :=
  let phrase_matches := bot_phrases.filter (fun p => listContains p.data (lowerData s))
  let r1 : ℚ × Indicators :=
    if phrase_matches.isEmpty then (0, ind)
    else (min ((phrase_matches.length : ℚ) * (1/10)) (1/2),
          { ind with suspicious_phrases := some phrase_matches })
  let ec := emoji_count s
  let r2 : ℚ × Indicators :=
    if 5 < ec then
      (r1.1 + min (((ec : ℚ) - 5) * (5/100)) (2/10),
       { r1.2 with excessive_emojis := some ec })
    else r1
  if hasUrl s.data then
    (r2.1 + 3/10, { r2.2 with contains_urls := some true })
  else r2

/-- The behavioral and profile stage of the scorer (source lines 66 to 96):
starting from the given indicators dict, accumulate the behavioral score,
the profile score and the data indicators for a truthy user-data dict. -/
def data_step (ud : UserData) (ind : Indicators) : ℚ × ℚ × Indicators :=
  let r1 : ℚ × Indicators :=
    if ltCheck ud.posting_regularity 1 then
      (3/10, { ind with suspiciously_regular_posting := some true })
    else (0, ind)
  let r2 : ℚ × Indicators :=
    if ltCheck ud.avg_engagement_rate (5/10) then
      (r1.1 + 3/10, { r1.2 with extremely_low_engagement := some true })
    else r1
  let followers : ℚ := ud.follower_count.getD 0
  let following : ℚ := ud.following_count.getD 0
  let r3 : ℚ × Indicators :=
    if 0 < followers ∧ 10 < following / followers then
      (2/10, { r2.2 with high_following_ratio := some true })
    else (0, r2.2)
  let post_count : ℚ := ud.post_count.getD 0
  let r4 : ℚ × Indicators :=
    if 1000 < post_count ∧ followers < 1000 then
      (r3.1 + 1/10, { r3.2 with excessive_post_volume := some true })
    else r3
  let r5 : ℚ × Indicators :=
    if ud.has_profile_pic.getD true then r4
    else (r4.1 + 2/10, { r4.2 with no_profile_pic := some true })
  (r2.1, r5.1, r5.2)

/-- Python truthiness of the optional comment text: it is a nonempty
string. -/
def ctextTruthy (comment_text : Option String) : Bool :=
  match comment_text with
  | some s => !s.data.isEmpty
  | none => false

/-- Python truthiness of the optional user-data dict. -/
def udataTruthy (user_data : Option UserData) : Bool :=
  match user_data with
  | some ud => ud.truthy
  | none => false

/-- The verified early exit fires: the user-data dict is truthy and its
is_verified entry is truthy. -/
def verifiedExit (user_data : Option UserData) : Bool :=
  match user_data with
  | some ud => ud.truthy && ud.is_verified.getD false
  | none => false

/-- The likelihood scorer calculate_bot_likelihood of the source (lines 11
to 117): from a username, an optional comment text and an optional
user-data dict, produce the likelihood and the indicators dict. -/
def calculate_bot_likelihood (username : String) (comment_text : Option String)
    (user_data : Option UserData) : ℚ × Indicators :=
  let cT := ctextTruthy comment_text
  let tRes : ℚ × Indicators :=
    if cT then text_step (comment_text.getD "") Indicators.empty
    else (0, Indicators.empty)
  if verifiedExit user_data then
    (5/100, { Indicators.empty with verified_account := some true })
  else
    let uT := udataTruthy user_data
    let dRes : ℚ × ℚ × Indicators :=
      if uT then data_step (user_data.getD UserData.empty) tRes.2
      else (0, 0, tRes.2)
    let uRes : ℚ × Indicators :=
      if suspicious_username username then
        (dRes.2.1 + 1/10, { dRes.2.2 with suspicious_username := some true })
      else (dRes.2.1, dRes.2.2)
    let final_score : ℚ :=
      if uT && cT then
        tRes.1 * (4/10) + dRes.1 * (4/10) + uRes.1 * (2/10)
      else if uT then
        dRes.1 * (6/10) + uRes.1 * (4/10)
      else if cT then
        tRes.1
      else
        uRes.1
    (min final_score (99/100), uRes.2)

/-- A comment as consumed by the coordination detector. -/
structure Comment where
  username : String
  text : String
  created_at : Option String
deriving DecidableEq

/-- Python text.lower().strip() on a character list: ASCII lowercase, then
strip leading and trailing whitespace. -/
def normData (s : String) : List Char :=
  (((lowerData s).dropWhile Char.isWhitespace).reverse.dropWhile
    Char.isWhitespace).reverse

/-- The normalized text of a comment, as a string. -/
def norm_text (s : String) : String := ⟨normData s⟩

/-- A coordination cluster as emitted by detect_coordination. -/
structure Cluster where
  text : String
  users : List String
  comment_count : ℕ
  confidence : ℚ
deriving DecidableEq

/-- The coordination detector detect_coordination of the source (lines 119
to 164): group the comments by normalized text in first-occurrence order,
keep the groups with text of length at least 10, at least two comments and
more than one distinct author, and emit one cluster per surviving group.
The timeframe parameter is accepted as in the source. -/
def detect_coordination (comments : List Comment) (timeframe_hours : ℚ) :
    List Cluster :=
  let keys := (comments.map (fun c => norm_text c.text)).dedup
  keys.filterMap (fun t =>
    let group := comments.filter (fun c => norm_text c.text == t)
    if t.length < 10 ∨ group.length < 2 then none
    else
      let users := (group.map (fun c => c.username)).dedup
      if 1 < users.length then
        some { text := t, users := users, comment_count := group.length,
               confidence := min ((5:ℚ)/10 + (group.length : ℚ) * (1/10)) (9/10) }
      else none)

/-- The text-pattern sub-score of the scorer, written as the sum of its
three guarded contributions. -/
def text_pattern_score (s : String) : ℚ :=
  (if (bot_phrases.filter (fun p => listContains p.data (lowerData s))).isEmpty
   then 0
   else min (((bot_phrases.filter
     (fun p => listContains p.data (lowerData s))).length : ℚ) * (1/10)) (1/2))
  + (if 5 < emoji_count s
     then min (((emoji_count s : ℚ) - 5) * (5/100)) (2/10) else 0)
  + (if hasUrl s.data then (3:ℚ)/10 else 0)

/-- The behavioral sub-score of the scorer, written as the sum of its two
guarded contributions. -/
def behavioral_score (ud : UserData) : ℚ :=
  (if ltCheck ud.posting_regularity 1 then (3:ℚ)/10 else 0)
  + (if ltCheck ud.avg_engagement_rate (5/10) then (3:ℚ)/10 else 0)

/-- The profile sub-score contributed by the user-data dict, written as the
sum of its three guarded contributions. -/
def profile_data_score (ud : UserData) : ℚ :=
  (if 0 < ud.follower_count.getD 0 ∧
      10 < ud.following_count.getD 0 / ud.follower_count.getD 0
   then (2:ℚ)/10 else 0)
  + (if 1000 < ud.post_count.getD 0 ∧ ud.follower_count.getD 0 < 1000
     then (1:ℚ)/10 else 0)
  + (if ud.has_profile_pic.getD true then 0 else (2:ℚ)/10)

/-- The whole profile-shape sub-score: the user-data contribution when the
dict is truthy, plus the username-pattern contribution. -/
def profile_shape_score (username : String) (user_data : Option UserData) : ℚ :=
  (if udataTruthy user_data then profile_data_score (user_data.getD UserData.empty)
   else 0)
  + (if suspicious_username username then (1:ℚ)/10 else 0)

theorem text_step_fst (s : String) (ind : Indicators) :
    (text_step s ind).1 = text_pattern_score s := by
  simp only [text_step, text_pattern_score]
  split_ifs <;> simp

theorem data_step_fst (ud : UserData) (ind : Indicators) :
    (data_step ud ind).1 = behavioral_score ud := by
  simp only [data_step, behavioral_score]
  split_ifs <;> simp

theorem data_step_snd_fst (ud : UserData) (ind : Indicators) :
    (data_step ud ind).2.1 = profile_data_score ud := by
  simp only [data_step, profile_data_score]
  split_ifs <;> simp

theorem text_step_srp (s : String) (ind : Indicators) :
    (text_step s ind).2.suspiciously_regular_posting =
      ind.suspiciously_regular_posting := by
  simp only [text_step]
  split_ifs <;> rfl

theorem text_step_ele (s : String) (ind : Indicators) :
    (text_step s ind).2.extremely_low_engagement =
      ind.extremely_low_engagement := by
  simp only [text_step]
  split_ifs <;> rfl

theorem text_step_hfr (s : String) (ind : Indicators) :
    (text_step s ind).2.high_following_ratio = ind.high_following_ratio := by
  simp only [text_step]
  split_ifs <;> rfl

theorem text_step_epv (s : String) (ind : Indicators) :
    (text_step s ind).2.excessive_post_volume = ind.excessive_post_volume := by
  simp only [text_step]
  split_ifs <;> rfl

theorem data_step_srp (ud : UserData) (ind : Indicators) :
    (data_step ud ind).2.2.suspiciously_regular_posting =
      if ltCheck ud.posting_regularity 1 then some true
      else ind.suspiciously_regular_posting := by
  simp only [data_step]
  split_ifs <;> rfl

theorem data_step_ele (ud : UserData) (ind : Indicators) :
    (data_step ud ind).2.2.extremely_low_engagement =
      if ltCheck ud.avg_engagement_rate (5/10) then some true
      else ind.extremely_low_engagement := by
  simp only [data_step]
  split_ifs <;> rfl

theorem data_step_hfr (ud : UserData) (ind : Indicators) :
    (data_step ud ind).2.2.high_following_ratio =
      if 0 < ud.follower_count.getD 0 ∧
         10 < ud.following_count.getD 0 / ud.follower_count.getD 0
      then some true else ind.high_following_ratio := by
  simp only [data_step]
  split_ifs <;> rfl

theorem data_step_epv (ud : UserData) (ind : Indicators) :
    (data_step ud ind).2.2.excessive_post_volume =
      if 1000 < ud.post_count.getD 0 ∧ ud.follower_count.getD 0 < 1000
      then some true else ind.excessive_post_volume := by
  simp only [data_step]
  split_ifs <;> rfl

theorem calc_fst_eq (u : String) (c : Option String) (d : Option UserData) :
    (calculate_bot_likelihood u c d).1 =
      if verifiedExit d then 5/100
      else
        min
          (if udataTruthy d && ctextTruthy c then
             text_pattern_score (c.getD "") * (4/10)
               + behavioral_score (d.getD UserData.empty) * (4/10)
               + profile_shape_score u d * (2/10)
           else if udataTruthy d then
             behavioral_score (d.getD UserData.empty) * (6/10)
               + profile_shape_score u d * (4/10)
           else if ctextTruthy c then text_pattern_score (c.getD "")
           else profile_shape_score u d)
          (99/100) := by
  simp only [calculate_bot_likelihood]
  by_cases hv : verifiedExit d
  · simp [hv, Indicators.empty]
  · by_cases hu : udataTruthy d <;> by_cases hc : ctextTruthy c <;>
      by_cases hs : suspicious_username u <;>
      simp [hv, hu, hc, hs, text_step_fst, data_step_fst, data_step_snd_fst,
        profile_shape_score]

theorem text_pattern_score_nonneg (s : String) : 0 ≤ text_pattern_score s := by
  unfold text_pattern_score
  apply add_nonneg
  apply add_nonneg
  · split_ifs with h
    · exact le_rfl
    · exact le_min (mul_nonneg (Nat.cast_nonneg _) (by norm_num)) (by norm_num)
  · split_ifs with h
    · refine le_min (mul_nonneg ?_ (by norm_num)) (by norm_num)
      have h5 : (5:ℚ) ≤ (emoji_count s : ℚ) := by exact_mod_cast h.le
      linarith
    · exact le_rfl
  · split_ifs <;> norm_num

theorem behavioral_score_nonneg (ud : UserData) : 0 ≤ behavioral_score ud := by
  unfold behavioral_score
  split_ifs <;> norm_num

theorem profile_data_score_nonneg (ud : UserData) :
    0 ≤ profile_data_score ud := by
  unfold profile_data_score
  split_ifs <;> norm_num

theorem profile_shape_score_nonneg (u : String) (d : Option UserData) :
    0 ≤ profile_shape_score u d := by
  unfold profile_shape_score
  have h := profile_data_score_nonneg (d.getD UserData.empty)
  split_ifs <;> simp_all
  linarith

/-- C1: for every username, optional comment text and optional profile, the
likelihood returned by the scorer lies between 0 and 0.99 inclusive; in
particular no input yields 1.0. -/
theorem likelihood_bounded (u : String) (c : Option String)
    (d : Option UserData) :
    0 ≤ (calculate_bot_likelihood u c d).1 ∧
      (calculate_bot_likelihood u c d).1 ≤ 99/100 := by
  rw [calc_fst_eq]
  have ht := text_pattern_score_nonneg (c.getD "")
  have hb := behavioral_score_nonneg (d.getD UserData.empty)
  have hp := profile_shape_score_nonneg u d
  split_ifs with hv h1 h2 h3
  · norm_num
  all_goals exact ⟨le_min (by linarith) (by norm_num), min_le_right _ _⟩

/-- C2: whenever the supplied profile has is_verified true, the scorer
returns exactly likelihood 0.05 with the single indicator
verified_account = true, regardless of username, comment text and all
other profile fields. -/
theorem verified_early_exit (u : String) (c : Option String) (ud : UserData)
    (h : ud.is_verified = some true) :
    calculate_bot_likelihood u c (some ud) =
      (5/100, { Indicators.empty with verified_account := some true }) := by
  have hv : verifiedExit (some ud) = true := by
    simp [verifiedExit, UserData.truthy, h]
  simp [calculate_bot_likelihood, hv]

/-- Witness for C2 at a concrete verified profile with a bot-like comment
and a bot-like username. -/
theorem verified_early_exit_witness :
    (⟨some true, some 0, some 0, some 5, some 50000, some 2000, some false,
        true⟩ : UserData).is_verified = some true ∧
    calculate_bot_likelihood "spam_bot" (some "dm me for passive income")
        (some ⟨some true, some 0, some 0, some 5, some 50000, some 2000,
          some false, true⟩) =
      (5/100, { Indicators.empty with verified_account := some true }) :=
  ⟨rfl, verified_early_exit "spam_bot" (some "dm me for passive income") _ rfl⟩

/-- The profile-shape sub-score as the spec words it: the profile checks
when a profile argument is supplied, plus the username-pattern bonus. -/
def spec_profile_shape (username : String) : Option UserData → ℚ
  | some ud =>
    profile_data_score ud + (if suspicious_username username then (1:ℚ)/10 else 0)
  | none => if suspicious_username username then (1:ℚ)/10 else 0

/-- The final pre-cap score as the spec words it: the weighting formula is
selected solely by which optional arguments are supplied (present), not by
their truthiness.  This definition follows the spec table, to be compared
with the score the code computes. -/
def spec_selected_score (username : String) :
    Option String → Option UserData → ℚ
  | some c, some d =>
    text_pattern_score c * (4/10) + behavioral_score d * (4/10)
      + spec_profile_shape username (some d) * (2/10)
  | none, some d =>
    behavioral_score d * (6/10) + spec_profile_shape username (some d) * (4/10)
  | some c, none => text_pattern_score c
  | none, none => spec_profile_shape username none

/-- The user-data dict of the C3 counterexample: only has_profile_pic set,
to false. -/
def c3_ud : UserData := ⟨none, none, none, none, none, none, some false, false⟩

/-- C3 as stated fails: with the comment text supplied as the empty string
and a profile whose only entry is has_profile_pic = false, the code
selects the profile-only weighting (the empty string is falsy), returning
0.08, while the formula selected by presence alone gives 0.04. -/
theorem formula_selection_counterexample :
    (calculate_bot_likelihood "x" (some "") (some c3_ud)).1 ≠
      min (spec_selected_score "x" (some "") (some c3_ud)) (99/100) := by
  have hb : behavioral_score c3_ud = 0 := by
    norm_num [behavioral_score, c3_ud, ltCheck]
  have hp : profile_data_score c3_ud = 2/10 := by
    norm_num [profile_data_score, c3_ud]
  have ht : text_pattern_score "" = 0 := by
    norm_num [text_pattern_score, emoji_count, hasUrl, bot_phrases,
      listContains, lowerData]
  have hsu : suspicious_username "x" = false := by decide
  have hv : verifiedExit (some c3_ud) = false := rfl
  have hu : udataTruthy (some c3_ud) = true := rfl
  have hc : ctextTruthy (some "") = false := rfl
  have hL : (calculate_bot_likelihood "x" (some "") (some c3_ud)).1 = 2/25 := by
    rw [calc_fst_eq]
    simp only [hv, hu, hc, profile_shape_score, Option.getD_some, hb, hp, hsu]
    norm_num [min_def]
  have hR : spec_selected_score "x" (some "") (some c3_ud) = 1/25 := by
    norm_num [spec_selected_score, spec_profile_shape, hb, hp, ht, hsu]
  rw [hL, hR]
  norm_num [min_def]

/-- C3 (amended): for every non-verified input, the likelihood equals the
0.99-capped formula selected by which optional inputs are present AND
truthy (a supplied empty comment text or empty profile dict counts as
absent): with both truthy it is 0.4·text + 0.4·behavioral +
0.2·profile_shape, with profile only 0.6·behavioral + 0.4·profile_shape,
with comment only the unweighted text sub-score, and otherwise the
unweighted profile-shape sub-score. -/
theorem formula_selection (u : String) (c : Option String)
    (d : Option UserData) (h : verifiedExit d = false) :
    (calculate_bot_likelihood u c d).1 =
      min
        (if udataTruthy d && ctextTruthy c then
           text_pattern_score (c.getD "") * (4/10)
             + behavioral_score (d.getD UserData.empty) * (4/10)
             + profile_shape_score u d * (2/10)
         else if udataTruthy d then
           behavioral_score (d.getD UserData.empty) * (6/10)
             + profile_shape_score u d * (4/10)
         else if ctextTruthy c then text_pattern_score (c.getD "")
         else profile_shape_score u d)
        (99/100) := by
  rw [calc_fst_eq, h]
  simp

/-- Witness for C3 (amended) at a concrete non-verified input with only a
comment text: the likelihood is the capped unweighted text sub-score. -/
theorem formula_selection_witness :
    (calculate_bot_likelihood "bob" (some "click here now") none).1 =
      min (text_pattern_score "click here now") (99/100) := by
  have h := formula_selection "bob" (some "click here now") none rfl
  simpa [udataTruthy, ctextTruthy] using h

theorem calc_srp (u : String) (c : Option String) (d : Option UserData) :
    (calculate_bot_likelihood u c d).2.suspiciously_regular_posting =
      if verifiedExit d then none
      else if udataTruthy d then
        (if ltCheck (d.getD UserData.empty).posting_regularity 1
         then some true else none)
      else none := by
  simp only [calculate_bot_likelihood]
  by_cases hv : verifiedExit d
  · simp [hv, Indicators.empty]
  · by_cases hu : udataTruthy d <;> by_cases hc : ctextTruthy c <;>
      by_cases hs : suspicious_username u <;>
      simp [hv, hu, hc, hs, data_step_srp, text_step_srp, Indicators.empty]

theorem calc_ele (u : String) (c : Option String) (d : Option UserData) :
    (calculate_bot_likelihood u c d).2.extremely_low_engagement =
      if verifiedExit d then none
      else if udataTruthy d then
        (if ltCheck (d.getD UserData.empty).avg_engagement_rate (5/10)
         then some true else none)
      else none := by
  simp only [calculate_bot_likelihood]
  by_cases hv : verifiedExit d
  · simp [hv, Indicators.empty]
  · by_cases hu : udataTruthy d <;> by_cases hc : ctextTruthy c <;>
      by_cases hs : suspicious_username u <;>
      simp [hv, hu, hc, hs, data_step_ele, text_step_ele, Indicators.empty]

theorem calc_hfr (u : String) (c : Option String) (d : Option UserData) :
    (calculate_bot_likelihood u c d).2.high_following_ratio =
      if verifiedExit d then none
      else if udataTruthy d then
        (if 0 < (d.getD UserData.empty).follower_count.getD 0 ∧
            10 < (d.getD UserData.empty).following_count.getD 0 /
              (d.getD UserData.empty).follower_count.getD 0
         then some true else none)
      else none := by
  simp only [calculate_bot_likelihood]
  by_cases hv : verifiedExit d
  · simp [hv, Indicators.empty]
  · by_cases hu : udataTruthy d <;> by_cases hc : ctextTruthy c <;>
      by_cases hs : suspicious_username u <;>
      simp [hv, hu, hc, hs, data_step_hfr, text_step_hfr, Indicators.empty]

theorem calc_epv (u : String) (c : Option String) (d : Option UserData) :
    (calculate_bot_likelihood u c d).2.excessive_post_volume =
      if verifiedExit d then none
      else if udataTruthy d then
        (if 1000 < (d.getD UserData.empty).post_count.getD 0 ∧
            (d.getD UserData.empty).follower_count.getD 0 < 1000
         then some true else none)
      else none := by
  simp only [calculate_bot_likelihood]
  by_cases hv : verifiedExit d
  · simp [hv, Indicators.empty]
  · by_cases hu : udataTruthy d <;> by_cases hc : ctextTruthy c <;>
      by_cases hs : suspicious_username u <;>
      simp [hv, hu, hc, hs, data_step_epv, text_step_epv, Indicators.empty]

/-- The user-data dict of the C4 counterexample: post_count 2000 and no
follower_count entry. -/
def c4_ud : UserData := ⟨none, none, none, none, none, some 2000, none, false⟩

/-- C4 as stated fails: with follower_count absent and post_count 2000, the
scorer emits excessive_post_volume, an indicator whose condition reads the
absent follower_count (treating the absence as 0). -/
theorem absent_field_counterexample :
    c4_ud.follower_count = none ∧
    (calculate_bot_likelihood "alice" none (some c4_ud)).2.excessive_post_volume
      = some true := by
  have hv : verifiedExit (some c4_ud) = false := rfl
  have hu : udataTruthy (some c4_ud) = true := rfl
  refine ⟨rfl, ?_⟩
  rw [calc_epv]
  simp only [hv, hu, Option.getD_some]
  norm_num [c4_ud]

/-- C4 (amended): for every profile input, an absent posting_regularity or
avg_engagement_rate suppresses the corresponding indicator and behavioral
contribution; an absent follower_count or following_count never produces
high_following_ratio and an absent post_count never produces
excessive_post_volume (the three count fields default to 0, so an absent
follower_count can still let excessive_post_volume fire when post_count
exceeds 1000); the scorer is total on missing optional fields. -/
theorem absent_fields_skip (u : String) (c : Option String) (ud : UserData) :
    (ud.posting_regularity = none →
      (calculate_bot_likelihood u c (some ud)).2.suspiciously_regular_posting
        = none) ∧
    (ud.avg_engagement_rate = none →
      (calculate_bot_likelihood u c (some ud)).2.extremely_low_engagement
        = none) ∧
    (ud.follower_count = none →
      (calculate_bot_likelihood u c (some ud)).2.high_following_ratio = none) ∧
    (ud.following_count = none →
      (calculate_bot_likelihood u c (some ud)).2.high_following_ratio = none) ∧
    (ud.post_count = none →
      (calculate_bot_likelihood u c (some ud)).2.excessive_post_volume
        = none) ∧
    (ud.posting_regularity = none → ud.avg_engagement_rate = none →
      behavioral_score ud = 0) := by
  refine ⟨fun h => ?_, fun h => ?_, fun h => ?_, fun h => ?_, fun h => ?_,
    fun h h2 => ?_⟩
  · rw [calc_srp]; simp [h, ltCheck]
  · rw [calc_ele]; simp [h, ltCheck]
  · rw [calc_hfr]; simp [h]
  · rw [calc_hfr]; simp [h]
  · rw [calc_epv]; simp [h]
  · simp [behavioral_score, h, h2, ltCheck]

/-- Witness for C4 (amended) at a concrete profile dict with every modelled
numeric field absent. -/
theorem absent_fields_skip_witness :
    (calculate_bot_likelihood "carol" none
        (some ⟨none, none, none, none, none, none, none, true⟩)
      ).2.suspiciously_regular_posting = none ∧
    behavioral_score ⟨none, none, none, none, none, none, none, true⟩ = 0 :=
  ⟨(absent_fields_skip "carol" none _).1 rfl,
   (absent_fields_skip "carol" none
     ⟨none, none, none, none, none, none, none, true⟩).2.2.2.2.2 rfl rfl⟩

/-- The user-data dict of the C5 counterexample: an avg_engagement_rate of
0.1, i.e. 10 percent when read as the fraction of the spec data model. -/
def c5_ud : UserData := ⟨none, none, some (1/10), none, none, none, none, false⟩

/-- C5 as stated fails: an avg_engagement_rate value of 0.1 is not below
the spec threshold of 0.005 (0.5 percent as a fraction), yet the scorer
emits extremely_low_engagement, because the code compares the raw value
against 0.5 (its caller supplies the rate as a percentage). -/
theorem engagement_threshold_counterexample :
    ¬ ((1:ℚ)/10 < 5/1000) ∧
    (calculate_bot_likelihood "alice" none (some c5_ud)
      ).2.extremely_low_engagement = some true := by
  have hv : verifiedExit (some c5_ud) = false := rfl
  have hu : udataTruthy (some c5_ud) = true := rfl
  refine ⟨by norm_num, ?_⟩
  rw [calc_ele]
  simp only [hv, hu, Option.getD_some]
  norm_num [c5_ud, ltCheck]

/-- C5 (amended): for every non-verified profile input carrying an
avg_engagement_rate value r, the 0.3 engagement contribution and the
extremely_low_engagement indicator fire exactly when r < 0.5 — the value
is compared against 0.5 directly, the platform layer supplying it as a
percentage (0.5 means 0.5 percent), not as the fraction the spec data
model declares. -/
theorem engagement_threshold (u : String) (c : Option String) (ud : UserData)
    (r : ℚ) (hr : ud.avg_engagement_rate = some r)
    (hnv : ud.is_verified.getD false = false) :
    ((calculate_bot_likelihood u c (some ud)).2.extremely_low_engagement
        = some true ↔ r < 5/10) ∧
    behavioral_score ud =
      (if ltCheck ud.posting_regularity 1 then (3:ℚ)/10 else 0)
        + (if r < 5/10 then (3:ℚ)/10 else 0) := by
  have hv : verifiedExit (some ud) = false := by
    simp [verifiedExit, hnv]
  have hu : udataTruthy (some ud) = true := by
    simp [udataTruthy, UserData.truthy, hr]
  constructor
  · rw [calc_ele]
    simp [hv, hu, hr, ltCheck]
  · simp [behavioral_score, hr, ltCheck]

/-- Witness for C5 (amended) at a concrete profile whose engagement value
0.3 lies below the code threshold 0.5: the indicator is present. -/
theorem engagement_threshold_witness :
    (calculate_bot_likelihood "dave" none
        (some ⟨none, none, some (3/10), none, none, none, none, false⟩)
      ).2.extremely_low_engagement = some true :=
  ((engagement_threshold "dave" none
      ⟨none, none, some (3/10), none, none, none, none, false⟩
      (3/10) rfl rfl).1).mpr (by norm_num)

/-- C9: when follower_count is 0 or absent, the ratio check is skipped: the
guard requires followers strictly positive before the division is reached,
so high_following_ratio is never emitted, however large following_count
is. -/
theorem ratio_check_skipped (u : String) (c : Option String) (ud : UserData)
    (h : ud.follower_count = none ∨ ud.follower_count = some 0) :
    (calculate_bot_likelihood u c (some ud)).2.high_following_ratio = none := by
  have hf : ud.follower_count.getD 0 = 0 := by
    rcases h with h | h <;> simp [h]
  rw [calc_hfr]
  simp [hf]

/-- Witness for C9 at a concrete profile with no follower_count entry and a
following_count of one million. -/
theorem ratio_check_skipped_witness :
    (calculate_bot_likelihood "eve" none
        (some ⟨none, none, none, none, some 1000000, none, none, false⟩)
      ).2.high_following_ratio = none :=
  ratio_check_skipped "eve" none
    ⟨none, none, none, none, some 1000000, none, none, false⟩ (Or.inl rfl)

/-- C8: both core functions are deterministic: equal inputs give equal
outputs for the scorer and for the coordination detector. -/
theorem determinism (u1 u2 : String) (c1 c2 : Option String)
    (d1 d2 : Option UserData) (cs1 cs2 : List Comment) (t1 t2 : ℚ)
    (hu : u1 = u2) (hc : c1 = c2) (hd : d1 = d2) (hcs : cs1 = cs2)
    (ht : t1 = t2) :
    calculate_bot_likelihood u1 c1 d1 = calculate_bot_likelihood u2 c2 d2 ∧
    detect_coordination cs1 t1 = detect_coordination cs2 t2 := by
  subst hu; subst hc; subst hd; subst hcs; subst ht
  exact ⟨rfl, rfl⟩

/-- Witness for C8 at concrete repeated inputs. -/
theorem determinism_witness :
    calculate_bot_likelihood "frank" (some "join now") none =
      calculate_bot_likelihood "frank" (some "join now") none ∧
    detect_coordination [⟨"frank", "join now please", none⟩] 24 =
      detect_coordination [⟨"frank", "join now please", none⟩] 24 :=
  determinism "frank" "frank" (some "join now") (some "join now") none none
    [⟨"frank", "join now please", none⟩] [⟨"frank", "join now please", none⟩]
    24 24 rfl rfl rfl rfl rfl

/-- C10: the output of detect_coordination does not depend on the timeframe
parameter nor on any created_at timestamp: rewriting every timestamp
arbitrarily (including removing it) and changing the timeframe leaves the
cluster list unchanged. -/
theorem timeframe_independent (comments : List Comment) (t1 t2 : ℚ)
    (g : Comment → Option String) :
    detect_coordination
        (comments.map (fun cm => { cm with created_at := g cm })) t2
      = detect_coordination comments t1 := by
  simp only [detect_coordination]
  have hmap : (comments.map
      (fun cm => ({ cm with created_at := g cm } : Comment))).map
        (fun cm => norm_text cm.text) =
      comments.map (fun cm => norm_text cm.text) := by
    rw [List.map_map]; rfl
  rw [hmap]
  have hgrp : ∀ t : String,
      (comments.map (fun cm => ({ cm with created_at := g cm } : Comment))
        ).filter (fun cm => norm_text cm.text == t) =
      (comments.filter (fun cm => norm_text cm.text == t)).map
        (fun cm => { cm with created_at := g cm }) := by
    intro t
    rw [List.filter_map]
    rfl
  refine List.filterMap_congr (fun t ht => ?_)
  simp only [hgrp, List.map_map, List.length_map]
  rfl

theorem detect_mem (comments : List Comment) (tf : ℚ) (cl : Cluster)
    (h : cl ∈ detect_coordination comments tf) :
    ∃ t : String,
      ¬ (t.length < 10) ∧
      ¬ ((comments.filter (fun cm => norm_text cm.text == t)).length < 2) ∧
      1 < ((comments.filter (fun cm => norm_text cm.text == t)).map
            (fun cm => cm.username)).dedup.length ∧
      cl = ⟨t,
        ((comments.filter (fun cm => norm_text cm.text == t)).map
          (fun cm => cm.username)).dedup,
        (comments.filter (fun cm => norm_text cm.text == t)).length,
        min ((5:ℚ)/10 +
          ((comments.filter (fun cm => norm_text cm.text == t)).length : ℚ)
            * (1/10)) (9/10)⟩ := by
  simp only [detect_coordination, List.mem_filterMap] at h
  obtain ⟨t, ht, hf⟩ := h
  refine ⟨t, ?_⟩
  by_cases h1 : t.length < 10 ∨
      (comments.filter (fun cm => norm_text cm.text == t)).length < 2
  · rw [if_pos h1] at hf
    exact absurd hf (by simp)
  · rw [if_neg h1] at hf
    by_cases h2 : 1 < ((comments.filter (fun cm => norm_text cm.text == t)).map
        (fun cm => cm.username)).dedup.length
    · rw [if_pos h2] at hf
      obtain ⟨h1a, h1b⟩ := not_or.mp h1
      exact ⟨h1a, h1b, h2, (Option.some.inj hf).symm⟩
    · rw [if_neg h2] at hf
      exact absurd hf (by simp)

/-- C6: every returned cluster has pairwise-distinct users, at least two of
them, its users are exactly the distinct authors of the comments whose
normalized text is the cluster text, the normalized text has at least 10
characters, and comment_count is the total size of the group. -/
theorem cluster_invariants (comments : List Comment) (tf : ℚ) (cl : Cluster)
    (h : cl ∈ detect_coordination comments tf) :
    cl.users.Nodup ∧ 2 ≤ cl.users.length ∧
    (∀ name, name ∈ cl.users ↔
      ∃ cm ∈ comments, norm_text cm.text = cl.text ∧ cm.username = name) ∧
    10 ≤ cl.text.length ∧
    cl.comment_count =
      (comments.filter (fun cm => norm_text cm.text == cl.text)).length := by
  obtain ⟨t, h10, h2c, hdist, rfl⟩ := detect_mem comments tf cl h
  refine ⟨List.nodup_dedup _, hdist, ?_, Nat.le_of_not_lt h10, rfl⟩
  intro name
  simp only [List.mem_dedup, List.mem_map, List.mem_filter, beq_iff_eq]
  constructor
  · rintro ⟨cm, ⟨hc1, hc2⟩, hc3⟩
    exact ⟨cm, hc1, hc2, hc3⟩
  · rintro ⟨cm, hc1, hc2, hc3⟩
    exact ⟨cm, ⟨hc1, hc2⟩, hc3⟩

/-- C7: every returned cluster carries confidence
min(0.5 + 0.1 · comment_count, 0.9). -/
theorem cluster_confidence (comments : List Comment) (tf : ℚ) (cl : Cluster)
    (h : cl ∈ detect_coordination comments tf) :
    cl.confidence =
      min ((5:ℚ)/10 + (cl.comment_count : ℚ) * (1/10)) (9/10) := by
  obtain ⟨t, h10, h2c, hdist, rfl⟩ := detect_mem comments tf cl h
  rfl

/-- The comment batch of the C6 witness: three distinct users posting the
identical long text, plus one unrelated comment. -/
def c6_comments : List Comment :=
  [⟨"user1", "Check out this amazing product! DM me for details.",
    some "2023-01-01T12:00:00"⟩,
   ⟨"user2", "Check out this amazing product! DM me for details.",
    some "2023-01-01T12:05:00"⟩,
   ⟨"user3", "Check out this amazing product! DM me for details.",
    some "2023-01-01T12:30:00"⟩,
   ⟨"real_user", "This looks interesting!", some "2023-01-01T13:00:00"⟩]

/-- The single cluster detected on the C6 witness batch. -/
def c6_cluster : Cluster :=
  ⟨"check out this amazing product! dm me for details.",
   ["user1", "user2", "user3"], 3,
   min ((5:ℚ)/10 + ((3:ℕ) : ℚ) * (1/10)) (9/10)⟩

/-- Witness for C6 at the concrete batch: the detected cluster satisfies
the invariants. -/
theorem cluster_invariants_witness :
    2 ≤ c6_cluster.users.length ∧ 10 ≤ c6_cluster.text.length :=
  ⟨(cluster_invariants c6_comments 24 c6_cluster
      ((show detect_coordination c6_comments 24 = [c6_cluster] from rfl) ▸
        List.mem_singleton_self c6_cluster)).2.1,
   (cluster_invariants c6_comments 24 c6_cluster
      ((show detect_coordination c6_comments 24 = [c6_cluster] from rfl) ▸
        List.mem_singleton_self c6_cluster)).2.2.2.1⟩

/-- The comment batch of the C7 witness: two distinct users posting the
identical 12-character text. -/
def c7_comments : List Comment :=
  [⟨"user1", "Hello world!", none⟩, ⟨"user2", "Hello world!", none⟩]

/-- The single cluster detected on the C7 witness batch. -/
def c7_cluster : Cluster :=
  ⟨"hello world!", ["user1", "user2"], 2,
   min ((5:ℚ)/10 + ((2:ℕ) : ℚ) * (1/10)) (9/10)⟩

/-- Witness for C7 at the concrete batch: the formula holds and evaluates
to 0.7 for two comments of identical 12-character text. -/
theorem cluster_confidence_witness :
    c7_cluster.confidence =
      min ((5:ℚ)/10 + (c7_cluster.comment_count : ℚ) * (1/10)) (9/10) ∧
    c7_cluster.confidence = 7/10 ∧ c7_cluster.text.length = 12 :=
  ⟨cluster_confidence c7_comments 24 c7_cluster
      ((show detect_coordination c7_comments 24 = [c7_cluster] from rfl) ▸
        List.mem_singleton_self c7_cluster),
   by norm_num [c7_cluster, min_def], rfl⟩
